import Mathlib

/-!
Shallow embedding of `torch/utils/data/decorator.py`.

The module under verification is decorator-based metaprogramming glue:
it registers functional-style methods onto the `IterDataPipe` base type,
tracks a process-wide `_determinism` flag, and wraps `__init__`/`__new__`
and `__iter__` with type-hint-driven validation.

Modelling choices:
* A Python object is modelled by the `PyVal` structure recording exactly the
  reflective facts the module queries about it: `isinstance(x, Type)`,
  `issubclass(x, IterDataPipe)`, `isinstance(x, non_deterministic)`,
  `hasattr on __self__` together with
  `isinstance(x.__self__, non_deterministic)`, `isinstance(x, Callable)`,
  and an object identity tag `oid`.
* The global flag `_determinism` is threaded explicitly as a `Bool` state.
* Raising `TypeError` is modelled with `Except String` (the string is the
  message class); a raising path returns `Except.error` and therefore carries
  no constructed value.
* `*args, **kwargs` tuples are modelled as `List PyVal` (resp. association
  lists of bound arguments for the validation wrappers).
-/

/-- Reflective view of a Python object, holding the facts that
`decorator.py` queries about its arguments. -/
structure PyVal where
  isType : Bool
  isSubclassIterDataPipe : Bool
  isNonDeterministic : Bool
  hasSelf : Bool
  selfIsNonDeterministic : Bool
  isCallable : Bool
  oid : Nat
deriving DecidableEq

/-- Discriminant of an `Except` result: `true` exactly on `Except.ok`. -/
def exceptIsOk {e a : Type} : Except e a → Bool
  | Except.ok _ => true
  | Except.error _ => false

/-- Registry of functional datapipes kept on the `IterDataPipe` base type. -/
def Registry : Type := List (String × PyVal)

/-- Error message raised by `functional_datapipe.__call__` on both of its
checking branches (the Python source raises the same text twice). -/
def fdErrMsg : String := "TypeError: functional_datapipe can only decorate IterDataPipe"

/-- Modelled from the spec: `IterDataPipe.register_datapipe_as_function` lives
outside this file (in `torch.utils.data`); per the spec it registers a class
under a functional name on the pipeline base type.  The registry is modelled
as an association list extended at the front. -/
def register_datapipe_as_function (name : String) (cls : PyVal) (reg : Registry) : Registry :=
  (name, cls) :: reg

/-- The `functional_datapipe` decorator object: its `__init__` stores `name`. -/
structure functional_datapipe where
  name : String
deriving DecidableEq

/-- Constructor `functional_datapipe(name)`. -/
def functional_datapipe_init (name : String) : functional_datapipe := ⟨name⟩

/-- The body of the two `raise` checks in `functional_datapipe.__call__`:
`some msg` when the call raises before registering, `none` when control
falls through to the registration. -/
def functional_datapipe_check (cls : PyVal) : Option String :=
  if cls.isType then
    if !cls.isSubclassIterDataPipe then some fdErrMsg else none
  else
    if !cls.isNonDeterministic && !(cls.hasSelf && cls.selfIsNonDeterministic) then
      some fdErrMsg
    else none

/-- Embedding of `functional_datapipe.__call__(cls)`: after the checks pass it
calls `IterDataPipe.register_datapipe_as_function(self.name, cls)` and returns
`cls`; on a raising path the registry is untouched. -/
def functional_datapipe_call (fd : functional_datapipe) (reg : Registry) (cls : PyVal) :
    Registry × Except String PyVal :=
  match functional_datapipe_check cls with
  | some msg => (reg, Except.error msg)
  | none => (register_datapipe_as_function fd.name cls reg, Except.ok cls)

/-- The `guaranteed_datapipes_determinism` context-manager object: its only
attribute is the saved previous value of the global `_determinism` flag. -/
structure guaranteed_datapipes_determinism where
  prev : Bool
deriving DecidableEq

/-- Embedding of `guaranteed_datapipes_determinism.__init__`: it saves the
current global `_determinism` into `self.prev` and sets the global to `True`.
The result pairs the constructed object with the new flag value. -/
def gdd_init (determinism : Bool) : guaranteed_datapipes_determinism × Bool :=
  (⟨determinism⟩, true)

/-- Embedding of `guaranteed_datapipes_determinism.__exit__`: it restores the
global `_determinism` to `self.prev`, ignoring the exception information
(`excOccurred`) and whatever value the flag had at exit time. -/
def gdd_exit (g : guaranteed_datapipes_determinism) (_excOccurred : Bool)
    (_determinismAtExit : Bool) : Bool :=
  g.prev

/-- The `non_deterministic` decorator object; its only persistent attribute
modelled here is `cls` (the `deterministic_fn` attribute, only ever set to the
function argument of `__init__`, is passed explicitly to
`deterministic_wrapper_fn` below). -/
structure NonDet where
  cls : Option PyVal
deriving DecidableEq

/-- Error message of `non_deterministic.__init__` for a class argument that is
not an `IterDataPipe` subclass. -/
def ndInitTypeMsg : String :=
  "TypeError: Only IterDataPipe can be decorated with non_deterministic"

/-- Error message of `non_deterministic.__init__` for an argument that is
neither a class nor callable. -/
def ndInitArgMsg : String := "TypeError: can not be decorated by non_deterministic"

/-- Error message of `non_deterministic.__call__` when the decorated class is
called while the global `_determinism` flag is set. -/
def nonDetClsMsg : String :=
  "TypeError: non-deterministic, but you set guaranteed_datapipes_determinism"

/-- Error message of `non_deterministic.__call__` when the functional-form
first argument is not an `IterDataPipe` subclass. -/
def ndOnlyMsg : String := "TypeError: Only IterDataPipe can be decorated"

/-- Error raised by `args[0]` on an empty argument tuple. -/
def ndIndexMsg : String := "IndexError: tuple index out of range"

/-- Embedding of `non_deterministic.__init__(arg)`: a class argument must
subclass `IterDataPipe` and is stored into `self.cls`; a callable argument is
stored as `deterministic_fn` leaving `self.cls` at its class default `None`;
anything else raises. -/
def non_deterministic_init (arg : PyVal) : Except String NonDet :=
  if arg.isType then
    if !arg.isSubclassIterDataPipe then Except.error ndInitTypeMsg
    else Except.ok ⟨some arg⟩
  else if arg.isCallable then Except.ok ⟨none⟩
  else Except.error ndInitArgMsg

/-- Result of calling a `non_deterministic` instance: either a constructed
pipe instance `self.cls(*args, **kwargs)` or the bound method
`self.deterministic_wrapper_fn`. -/
inductive CallRes where
  | pipe (cls : PyVal) (args : List PyVal)
  | boundMethod
deriving DecidableEq

/-- Embedding of `non_deterministic.__call__(*args, **kwargs)` given the
global `_determinism` flag `det`.  When `self.cls` is set it raises if the
flag is set and otherwise constructs `self.cls(*args, **kwargs)`; when
`self.cls` is `None` it checks `args[0]`, stores it into `self.cls` and
returns the bound `deterministic_wrapper_fn`. -/
def non_deterministic_call (nd : NonDet) (det : Bool) (args : List PyVal) :
    Except String (NonDet × CallRes) :=
  match nd.cls with
  | some c =>
      if det then Except.error nonDetClsMsg
      else Except.ok (nd, CallRes.pipe c args)
  | none =>
      match args with
      | [] => Except.error ndIndexMsg
      | a :: _ =>
          if !(a.isType && a.isSubclassIterDataPipe) then Except.error ndOnlyMsg
          else Except.ok (⟨some a⟩, CallRes.boundMethod)

/-- Result of evaluating `self.deterministic_fn(*args, **kwargs)`: a Python
bool, or a value of some other type (carrying its type name). -/
inductive DetFnRes where
  | boolean (b : Bool)
  | other (typeName : String)
deriving DecidableEq

/-- Error message of `deterministic_wrapper_fn` when `deterministic_fn` does
not return a bool. -/
def detFnMsg : String :=
  "TypeError: deterministic_fn of non_deterministic decorator is required to return a boolean value"

/-- Error message of `deterministic_wrapper_fn` when the flag is set and the
instance is non-deterministic for the given inputs. -/
def nonDetInputsMsg : String :=
  "TypeError: non-deterministic with the inputs, but you set guaranteed_datapipes_determinism"

/-- Embedding of `non_deterministic.deterministic_wrapper_fn(*args, **kwargs)`
with the global `_determinism` flag `det`, the stored `deterministic_fn` `fn`
and the stored class `c = self.cls` (the method is only reachable after
`__call__` has stored a class into `self.cls`, see the C10 theorem).  It first
evaluates `fn args`; a non-bool result raises, then a `True` result raises
when the flag is set, and otherwise `self.cls(*args, **kwargs)` is
constructed. -/
def deterministic_wrapper_fn (c : PyVal) (det : Bool) (fn : List PyVal → DetFnRes)
    (args : List PyVal) : Except String CallRes :=
  match fn args with
  | DetFnRes.other _ => Except.error detFnMsg
  | DetFnRes.boolean res =>
      if det && res then Except.error nonDetInputsMsg
      else Except.ok (CallRes.pipe c args)

/-- A resolved type hint of a bound argument: either a `_DataPipeMeta` hint
carrying its `.type` attribute (modelled over an arbitrary type `T` of
datapipe types), or any other kind of hint. -/
inductive Hint (T : Type) where
  | datapipeMeta (ty : T)
  | plain
deriving DecidableEq

/-- A bound argument value as seen by `construct_time_validation`: whether it
is an `IterDataPipe` instance, and its `.type` attribute. -/
structure ArgVal (T : Type) where
  isIterDataPipe : Bool
  type : T
deriving DecidableEq

/-- Error message of the construct-time wrapper for an argument that is not an
`IterDataPipe` instance. -/
def ctvNotPipeMsg : String := "TypeError: Expected argument as a IterDataPipe"

/-- Error message of the construct-time wrapper for an argument whose type is
not a subtype of the hint type. -/
def ctvNotSubtypeMsg : String := "TypeError: Expected type of argument as a subtype of hint"

/-- Error message of `construct_time_validation` at decoration time for a
function that is neither `__init__` nor `__new__`. -/
def ctvNameMsg : String := "TypeError: Can not decorate function with construct_time_validation"

/-- Error message of `runtime_validation` at decoration time for a function
that is not `__iter__`. -/
def rvNameMsg : String := "TypeError: Can not decorate function with runtime_validation"

/-- Error message of the runtime wrapper for a yielded element that is not an
instance of the subtype. -/
def rvElemMsg : String := "TypeError: Expected an instance of subtype"

/-- Embedding of the `for argument_name, value in bound.arguments.items()`
loop of the construct-time wrapper.  `issub` models `.issubtype`, `hints`
models `get_type_hints(f)`.  The loop returns the post-loop state of every
bound argument (mutations of `value.type` are kept in the returned list, also
when a later argument raises) together with `some msg` when it raised. -/
def ctv_loop {T : Type} [DecidableEq T] (issub : T → T → Bool)
    (hints : String → Option (Hint T)) :
    List (String × ArgVal T) → List (String × ArgVal T) × Option String
  | [] => ([], none)
  | (n, v) :: rest =>
      match hints n with
      | some (Hint.datapipeMeta t) =>
          if !v.isIterDataPipe then ((n, v) :: rest, some ctvNotPipeMsg)
          else if !issub v.type t then ((n, v) :: rest, some ctvNotSubtypeMsg)
          else
            let v2 := if v.type ≠ t then { v with type := t } else v
            let r := ctv_loop issub hints rest
            ((n, v2) :: r.1, r.2)
      | _ =>
          let r := ctv_loop issub hints rest
          ((n, v) :: r.1, r.2)

/-- Embedding of the construct-time `wrapper`: run the validation loop over
the bound arguments and, when it did not raise, call `f` on the (in-place
updated) original arguments. -/
def ctv_wrapper {T R : Type} [DecidableEq T] (issub : T → T → Bool)
    (hints : String → Option (Hint T)) (f : List (String × ArgVal T) → R)
    (args : List (String × ArgVal T)) : Except String R :=
  match ctv_loop issub hints args with
  | (args2, none) => Except.ok (f args2)
  | (_, some msg) => Except.error msg

/-- Embedding of `construct_time_validation(f)` for a function whose
`__name__` is `fname`: a decoration-time name check followed by returning the
wrapper. -/
def construct_time_validation {T R : Type} [DecidableEq T] (fname : String)
    (issub : T → T → Bool) (hints : String → Option (Hint T))
    (f : List (String × ArgVal T) → R) :
    Except String (List (String × ArgVal T) → Except String R) :=
  if fname ≠ "__init__" ∧ fname ≠ "__new__" then Except.error ctvNameMsg
  else Except.ok (ctv_wrapper issub hints f)

/-- Embedding of the generator produced by the runtime `wrapper`: it yields
the elements of the underlying iterator in order, each checked with
`self.type.issubtype_of_instance` (modelled by `check`); at the first failing
element it stops yielding and raises.  The result is the list of yielded
elements paired with `some msg` when it raised. -/
def rv_loop {D : Type} (check : D → Bool) : List D → List D × Option String
  | [] => ([], none)
  | d :: rest =>
      if check d then
        let r := rv_loop check rest
        (d :: r.1, r.2)
      else ([], some rvElemMsg)

/-- The runtime `wrapper(self)`: run `f(self)` and validate each yielded
element against `self.type` (modelled by `tychk self`). -/
def rv_wrapper {S D : Type} (tychk : S → D → Bool) (f : S → List D) (s : S) :
    List D × Option String :=
  rv_loop (tychk s) (f s)

/-- Embedding of `runtime_validation(f)` for a function whose `__name__` is
`fname`: a decoration-time name check followed by returning the wrapper. -/
def runtime_validation {S D : Type} (fname : String) (tychk : S → D → Bool)
    (f : S → List D) : Except String (S → List D × Option String) :=
  if fname ≠ "__iter__" then Except.error rvNameMsg
  else Except.ok (rv_wrapper tychk f)

/-- Boolean statement, in the words of claim C5, that a bound argument
violates the construct-time check: its hint is a `_DataPipeMeta` and it is
either not an `IterDataPipe` instance or its type is not a subtype of the
hint type. -/
def ctvViolates {T : Type} (issub : T → T → Bool) (hints : String → Option (Hint T))
    (nv : String × ArgVal T) : Bool :=
  match hints nv.1 with
  | some (Hint.datapipeMeta t) => !nv.2.isIterDataPipe || !issub nv.2.type t
  | _ => false

/-- The in-place update the construct-time loop applies to an argument that
passes its checks: an argument with a `_DataPipeMeta` hint has its `.type`
replaced by (a deep copy of) the hint type; any other argument is untouched. -/
def ctv_mutate {T : Type} (hints : String → Option (Hint T))
    (nv : String × ArgVal T) : String × ArgVal T :=
  match hints nv.1 with
  | some (Hint.datapipeMeta t) => (nv.1, { nv.2 with type := t })
  | _ => nv

/-- A concrete class value subclassing `IterDataPipe` (used by witnesses). -/
def pvPipeClass : PyVal := ⟨true, true, false, false, false, true, 0⟩

/-- A concrete class value that does not subclass `IterDataPipe`. -/
def pvOtherClass : PyVal := ⟨true, false, false, false, false, true, 1⟩

/-- C1: for every class value that subclasses `IterDataPipe`, calling
`functional_datapipe(name)(cls)` registers `cls` under `name` via
`IterDataPipe.register_datapipe_as_function(name, cls)` and returns `cls`
itself unchanged. -/
theorem functional_datapipe_registers_iterdatapipe_subclass
    (name : String) (reg : Registry) (cls : PyVal)
    (h1 : cls.isType = true) (h2 : cls.isSubclassIterDataPipe = true) :
    functional_datapipe_call (functional_datapipe_init name) reg cls =
      (register_datapipe_as_function name cls reg, Except.ok cls) ∧
    register_datapipe_as_function name cls reg = (name, cls) :: reg := by
  constructor
  · simp [functional_datapipe_call, functional_datapipe_check,
      functional_datapipe_init, h1, h2]
  · rfl

/-- Witness for C1 at a concrete class and registry. -/
theorem functional_datapipe_registers_iterdatapipe_subclass_witness :
    functional_datapipe_call (functional_datapipe_init "map") ([] : Registry) pvPipeClass =
      (register_datapipe_as_function "map" pvPipeClass ([] : Registry),
       Except.ok pvPipeClass) :=
  (functional_datapipe_registers_iterdatapipe_subclass "map" ([] : Registry)
    pvPipeClass rfl rfl).1

/-- C2: `guaranteed_datapipes_determinism()` stores the prior flag value and
sets the flag to `True`; `__exit__` restores the prior value regardless of the
exception information and of the flag value at exit time, so nested contexts
restore the flag level by level and a round trip leaves it unchanged. -/
theorem guaranteed_determinism_round_trip (p d d2 e e2 : Bool) :
    (gdd_init p).1.prev = p ∧
    (gdd_init p).2 = true ∧
    gdd_exit (gdd_init p).1 e d = p ∧
    gdd_exit (gdd_init ((gdd_init p).2)).1 e2 d2 = (gdd_init p).2 ∧
    gdd_exit (gdd_init p).1 e (gdd_exit (gdd_init ((gdd_init p).2)).1 e2 d2) = p := by
  simp [gdd_init, gdd_exit]

/-- C8: `functional_datapipe(name)(obj)` raises without touching the registry
when `obj` is a class that does not subclass `IterDataPipe`, and when `obj`
is not a class and is neither a `non_deterministic` instance nor bound to
one; registration happens exactly when both checks fall through. -/
theorem functional_datapipe_error_paths (fd : functional_datapipe)
    (reg : Registry) (cls : PyVal) :
    (cls.isType = true → cls.isSubclassIterDataPipe = false →
      functional_datapipe_call fd reg cls = (reg, Except.error fdErrMsg)) ∧
    (cls.isType = false → cls.isNonDeterministic = false →
      (cls.hasSelf && cls.selfIsNonDeterministic) = false →
      functional_datapipe_call fd reg cls = (reg, Except.error fdErrMsg)) ∧
    (functional_datapipe_check cls = none →
      functional_datapipe_call fd reg cls =
        (register_datapipe_as_function fd.name cls reg, Except.ok cls)) := by
  refine ⟨?_, ?_, ?_⟩
  · intro h1 h2
    simp [functional_datapipe_call, functional_datapipe_check, h1, h2]
  · intro h1 h2 h3
    simp [functional_datapipe_call, functional_datapipe_check, h1, h2, h3]
  · intro h
    simp [functional_datapipe_call, h]

/-- Witness for C8 at a concrete non-`IterDataPipe` class. -/
theorem functional_datapipe_error_paths_witness :
    functional_datapipe_call (functional_datapipe_init "shuffle") ([] : Registry)
      pvOtherClass = (([] : Registry), Except.error fdErrMsg) :=
  (functional_datapipe_error_paths (functional_datapipe_init "shuffle")
    ([] : Registry) pvOtherClass).1 rfl rfl

/-- C3: for a `non_deterministic` instance constructed directly on an
`IterDataPipe` subclass (so `self.cls` is set), calling the instance raises
exactly when the global `_determinism` flag is `True` (constructing nothing),
otherwise it returns `self.cls(*args, **kwargs)`; whether it raises depends
only on the shared flag, not on which instance is called. -/
theorem non_deterministic_class_call_determinism (a a2 : PyVal) (det : Bool)
    (args args2 : List PyVal)
    (h1 : a.isType = true) (h2 : a.isSubclassIterDataPipe = true)
    (h3 : a2.isType = true) (h4 : a2.isSubclassIterDataPipe = true) :
    non_deterministic_init a = Except.ok ⟨some a⟩ ∧
    non_deterministic_call ⟨some a⟩ det args =
      (if det then Except.error nonDetClsMsg
       else Except.ok (⟨some a⟩, CallRes.pipe a args)) ∧
    exceptIsOk (non_deterministic_call ⟨some a⟩ det args) =
      exceptIsOk (non_deterministic_call ⟨some a2⟩ det args2) := by
  refine ⟨?_, ?_, ?_⟩
  · simp [non_deterministic_init, h1, h2]
  · rfl
  · cases det <;> simp [non_deterministic_call, exceptIsOk]

/-- Witness for C3 at two concrete decorated classes with the flag set. -/
theorem non_deterministic_class_call_determinism_witness :
    non_deterministic_call ⟨some pvPipeClass⟩ true [] = Except.error nonDetClsMsg := by
  have h := (non_deterministic_class_call_determinism pvPipeClass pvPipeClass true
    [] [] rfl rfl rfl rfl).2.1
  simpa using h

/-- C4: `deterministic_wrapper_fn` first evaluates
`deterministic_fn(*args, **kwargs)` and raises on a non-bool result; then it
raises when the global flag is set and the result is `True`; otherwise it
constructs `self.cls(*args, **kwargs)`.  No pipe value is carried by either
error result. -/
theorem deterministic_wrapper_fn_validation (c : PyVal) (det : Bool)
    (fn : List PyVal → DetFnRes) (args : List PyVal) :
    (∀ tn, fn args = DetFnRes.other tn →
      deterministic_wrapper_fn c det fn args = Except.error detFnMsg) ∧
    (∀ res, fn args = DetFnRes.boolean res → (det && res) = true →
      deterministic_wrapper_fn c det fn args = Except.error nonDetInputsMsg) ∧
    (∀ res, fn args = DetFnRes.boolean res → (det && res) = false →
      deterministic_wrapper_fn c det fn args = Except.ok (CallRes.pipe c args)) := by
  refine ⟨?_, ?_, ?_⟩
  · intro tn h
    simp [deterministic_wrapper_fn, h]
  · intro res h1 h2
    simp [deterministic_wrapper_fn, h1, h2]
  · intro res h1 h2
    simp [deterministic_wrapper_fn, h1, h2]

/-- A concrete `deterministic_fn` returning a non-bool value. -/
def detFnOther : List PyVal → DetFnRes := fun _ => DetFnRes.other "int"

/-- Witness for C4: a non-bool `deterministic_fn` result raises even though
the flag is set. -/
theorem deterministic_wrapper_fn_validation_witness :
    deterministic_wrapper_fn pvPipeClass true detFnOther [] = Except.error detFnMsg :=
  (deterministic_wrapper_fn_validation pvPipeClass true detFnOther []).1 "int" rfl

/-- C10: with `self.cls` still `None` (function-argument form), a first call
whose first positional argument is not an `IterDataPipe` subclass raises;
otherwise the call stores that class into `self.cls` and returns the bound
`deterministic_wrapper_fn` rather than a pipe instance, and any subsequent
direct call of the updated instance takes the class-decoration branch. -/
theorem non_deterministic_functional_branch (nd : NonDet) (det det2 : Bool)
    (a : PyVal) (rest args2 : List PyVal) (h : nd.cls = none) :
    non_deterministic_call nd det (a :: rest) =
      (if a.isType && a.isSubclassIterDataPipe
       then Except.ok (⟨some a⟩, CallRes.boundMethod)
       else Except.error ndOnlyMsg) ∧
    non_deterministic_call ⟨some a⟩ det2 args2 =
      (if det2 then Except.error nonDetClsMsg
       else Except.ok (⟨some a⟩, CallRes.pipe a args2)) := by
  have hnd : nd = ⟨none⟩ := by
    cases nd
    simpa using h
  subst hnd
  constructor
  · cases hc : (a.isType && a.isSubclassIterDataPipe) <;>
      simp [non_deterministic_call, hc]
  · rfl

/-- Witness for C10: the functional form stores the class and returns the
bound method. -/
theorem non_deterministic_functional_branch_witness :
    non_deterministic_call ⟨none⟩ false [pvPipeClass] =
      Except.ok (⟨some pvPipeClass⟩, CallRes.boundMethod) := by
  have h := (non_deterministic_functional_branch ⟨none⟩ false false pvPipeClass
    [] [] rfl).1
  simpa [pvPipeClass] using h

/-- The yielded prefix of the runtime wrapper is the longest prefix of the
underlying iterator whose elements all pass the type check. -/
theorem rv_loop_fst {D : Type} (p : D → Bool) (xs : List D) :
    (rv_loop p xs).1 = xs.takeWhile p := by
  induction xs with
  | nil => rfl
  | cons d rest ih =>
      cases hp : p d
      · simp [rv_loop, hp, List.takeWhile]
      · simp [rv_loop, hp, List.takeWhile, ih]

/-- The runtime wrapper raises exactly when some yielded element fails the
type check. -/
theorem rv_loop_snd {D : Type} (p : D → Bool) (xs : List D) :
    ((rv_loop p xs).2 = none ↔ xs.all p = true) := by
  induction xs with
  | nil => simp [rv_loop]
  | cons d rest ih =>
      cases hp : p d
      · simp [rv_loop, hp]
      · simp [rv_loop, hp, ih]

/-- When some element fails the check, the runtime wrapper raises the
`TypeError` message for a bad instance. -/
theorem rv_loop_err {D : Type} (p : D → Bool) (xs : List D)
    (h : xs.all p = false) : (rv_loop p xs).2 = some rvElemMsg := by
  induction xs with
  | nil => simp at h
  | cons d rest ih =>
      cases hp : p d
      · simp [rv_loop, hp]
      · have hrest : rest.all p = false := by simpa [hp] using h
        simpa [rv_loop, hp] using ih hrest

/-- C6: wrapping a function named `__iter__` with `runtime_validation` gives
an iterator that yields exactly the elements of `f(self)`, unchanged and in
order, up to (and not including) the first element failing
`self.type.issubtype_of_instance`, where it raises `TypeError`; when every
element passes, the wrapped iterator yields the same sequence as the
unwrapped one and does not raise. -/
theorem runtime_validation_checked_output {S D : Type}
    (tychk : S → D → Bool) (f : S → List D) (s : S) :
    runtime_validation "__iter__" tychk f = Except.ok (rv_wrapper tychk f) ∧
    (rv_wrapper tychk f s).1 = (f s).takeWhile (tychk s) ∧
    ((rv_wrapper tychk f s).2 = none ↔ (f s).all (tychk s) = true) ∧
    ((f s).all (tychk s) = true → (rv_wrapper tychk f s).1 = f s) ∧
    ((f s).all (tychk s) = false → (rv_wrapper tychk f s).2 = some rvElemMsg) := by
  refine ⟨rfl, rv_loop_fst _ _, rv_loop_snd _ _, ?_, ?_⟩
  · intro h
    rw [rv_wrapper, rv_loop_fst]
    exact List.takeWhile_eq_self_iff.mpr (by simpa [List.all_eq_true] using h)
  · intro h
    exact rv_loop_err _ _ h

/-- Concrete per-element check for the C6 witness. -/
def rvW_tychk : Nat → Nat → Bool := fun _ d => decide (d < 10)

/-- Concrete underlying iterator for the C6 witness. -/
def rvW_f : Nat → List Nat := fun _ => [1, 2, 3]

/-- Witness for C6: on an all-passing iterator the wrapper yields the whole
sequence unchanged and does not raise. -/
theorem runtime_validation_checked_output_witness :
    (rv_wrapper rvW_tychk rvW_f 0).1 = [1, 2, 3] ∧
    (rv_wrapper rvW_tychk rvW_f 0).2 = none := by
  constructor
  · have h := (runtime_validation_checked_output rvW_tychk rvW_f 0).2.2.2.1
      (by decide)
    simpa [rvW_f] using h
  · exact (runtime_validation_checked_output rvW_tychk rvW_f 0).2.2.1.mpr
      (by decide)

/-- C7: at decoration time `construct_time_validation` accepts exactly the
names `__init__` and `__new__`, and `runtime_validation` accepts exactly the
name `__iter__`; every other name raises `TypeError` and no wrapper is
returned. -/
theorem validation_decorator_name_checks {T R S D : Type} [DecidableEq T]
    (fname : String) (issub : T → T → Bool) (hints : String → Option (Hint T))
    (f : List (String × ArgVal T) → R) (tychk : S → D → Bool) (g : S → List D) :
    (exceptIsOk (construct_time_validation fname issub hints f) = true ↔
      (fname = "__init__" ∨ fname = "__new__")) ∧
    (exceptIsOk (runtime_validation fname tychk g) = true ↔ fname = "__iter__") := by
  constructor
  · constructor
    · intro hok
      by_contra hno
      push_neg at hno
      rw [construct_time_validation, if_pos hno] at hok
      simp [exceptIsOk] at hok
    · intro hname
      have hcond : ¬(fname ≠ "__init__" ∧ fname ≠ "__new__") := by tauto
      rw [construct_time_validation, if_neg hcond]
      rfl
  · constructor
    · intro hok
      by_contra hno
      rw [runtime_validation, if_pos hno] at hok
      simp [exceptIsOk] at hok
    · intro hname
      rw [runtime_validation, if_neg (by simp [hname])]
      rfl

/-- Writing the hint type over an argument whose own type already equals it
is the identity, so the conditional update of the loop is the unconditional
update. -/
theorem ctv_update_eq {T : Type} [DecidableEq T] (v : ArgVal T) (t : T) :
    (if v.type ≠ t then { v with type := t } else v) = { v with type := t } := by
  by_cases h : v.type = t
  · cases v with
    | mk ip ty =>
        simp at h
        simp [h]
  · simp [h]

/-- A bound argument that passes its checks is processed by replaying
`ctv_mutate` on it and continuing the loop on the remaining arguments. -/
theorem ctv_loop_head_pass {T : Type} [DecidableEq T] (issub : T → T → Bool)
    (hints : String → Option (Hint T)) (n : String) (v : ArgVal T)
    (rest : List (String × ArgVal T))
    (h : ctvViolates issub hints (n, v) = false) :
    ctv_loop issub hints ((n, v) :: rest) =
      (ctv_mutate hints (n, v) :: (ctv_loop issub hints rest).1,
       (ctv_loop issub hints rest).2) := by
  cases hh : hints n with
  | none => simp [ctv_loop, ctv_mutate, hh]
  | some hint =>
      cases hint with
      | plain => simp [ctv_loop, ctv_mutate, hh]
      | datapipeMeta t =>
          obtain ⟨ip, ty⟩ := v
          have hv : ip = true ∧ issub ty t = true := by
            simpa [ctvViolates, hh] using h
          obtain ⟨hv1, hv2⟩ := hv
          subst hv1
          by_cases hty : ty = t
          · subst hty
            simp [ctv_loop, ctv_mutate, hh, hv2]
          · simp [ctv_loop, ctv_mutate, hh, hv2, hty]

/-- A bound argument that violates a check stops the loop: every argument
from the violating one on is left untouched and an error is reported. -/
theorem ctv_loop_head_violation {T : Type} [DecidableEq T] (issub : T → T → Bool)
    (hints : String → Option (Hint T)) (n : String) (v : ArgVal T)
    (rest : List (String × ArgVal T))
    (h : ctvViolates issub hints (n, v) = true) :
    (ctv_loop issub hints ((n, v) :: rest)).1 = (n, v) :: rest ∧
    (ctv_loop issub hints ((n, v) :: rest)).2.isSome = true := by
  cases hh : hints n with
  | none => simp [ctvViolates, hh] at h
  | some hint =>
      cases hint with
      | plain => simp [ctvViolates, hh] at h
      | datapipeMeta t =>
          cases hip : v.isIterDataPipe
          · simp [ctv_loop, hh, hip]
          · have hsub : issub v.type t = false := by
              simpa [ctvViolates, hh, hip] using h
            simp [ctv_loop, hh, hip, hsub]

/-- When every bound argument passes its checks, the loop terminates without
raising and the post-loop arguments are exactly the per-argument mutations. -/
theorem ctv_loop_all_pass {T : Type} [DecidableEq T] (issub : T → T → Bool)
    (hints : String → Option (Hint T)) (args : List (String × ArgVal T))
    (h : args.all (fun nv => !ctvViolates issub hints nv) = true) :
    ctv_loop issub hints args = (args.map (ctv_mutate hints), none) := by
  induction args with
  | nil => rfl
  | cons nv rest ih =>
      obtain ⟨n, v⟩ := nv
      simp [List.all_cons, Bool.and_eq_true] at h
      obtain ⟨h1, h2⟩ := h
      have h2A : rest.all (fun nv => !ctvViolates issub hints nv) = true := by
        simpa [List.all_eq_true] using h2
      rw [ctv_loop_head_pass issub hints n v rest (by simpa using h1), ih h2A]
      simp

/-- When some bound argument violates a check, the loop raises. -/
theorem ctv_loop_err_of_violation {T : Type} [DecidableEq T] (issub : T → T → Bool)
    (hints : String → Option (Hint T)) (args : List (String × ArgVal T))
    (h : args.all (fun nv => !ctvViolates issub hints nv) = false) :
    (ctv_loop issub hints args).2.isSome = true := by
  induction args with
  | nil => simp at h
  | cons nv rest ih =>
      obtain ⟨n, v⟩ := nv
      cases hv : ctvViolates issub hints (n, v)
      · have hrest : rest.all (fun nv => !ctvViolates issub hints nv) = false := by
          simpa [List.all_cons, hv] using h
        rw [ctv_loop_head_pass issub hints n v rest hv]
        exact ih hrest
      · exact (ctv_loop_head_violation issub hints n v rest hv).2

/-- C5: the wrapper produced by `construct_time_validation` on `__init__` or
`__new__` raises `TypeError` exactly when some bound argument with a
`_DataPipeMeta` hint is not an `IterDataPipe` instance or has a type that is
not a subtype of the hint type; when no argument violates either condition it
calls `f` on the original (in-place updated) arguments and returns its
result. -/
theorem construct_time_wrapper_validation {T R : Type} [DecidableEq T]
    (issub : T → T → Bool) (hints : String → Option (Hint T))
    (f : List (String × ArgVal T) → R) (args : List (String × ArgVal T)) :
    construct_time_validation "__init__" issub hints f =
      Except.ok (ctv_wrapper issub hints f) ∧
    construct_time_validation "__new__" issub hints f =
      Except.ok (ctv_wrapper issub hints f) ∧
    (exceptIsOk (ctv_wrapper issub hints f args) = true ↔
      args.all (fun nv => !ctvViolates issub hints nv) = true) ∧
    (args.all (fun nv => !ctvViolates issub hints nv) = true →
      ctv_wrapper issub hints f args =
        Except.ok (f (args.map (ctv_mutate hints)))) := by
  have hok : args.all (fun nv => !ctvViolates issub hints nv) = true →
      ctv_wrapper issub hints f args =
        Except.ok (f (args.map (ctv_mutate hints))) := by
    intro hall
    have hl := ctv_loop_all_pass issub hints args hall
    simp [ctv_wrapper, hl]
  refine ⟨rfl, rfl, ⟨?_, ?_⟩, hok⟩
  · intro hwrap
    cases hb : args.all (fun nv => !ctvViolates issub hints nv)
    · exfalso
      have h2 := ctv_loop_err_of_violation issub hints args hb
      rcases hl : ctv_loop issub hints args with ⟨l, e⟩
      rw [hl] at h2
      cases e with
      | none => simp at h2
      | some m => simp [ctv_wrapper, hl, exceptIsOk] at hwrap
    · rfl
  · intro hall
    simp [hok hall, exceptIsOk]

/-- Concrete subtype relation for the construct-time witnesses. -/
def ctvW_issub : Nat → Nat → Bool := fun a b => decide (a ≤ b)

/-- Concrete hint table for the construct-time witnesses. -/
def ctvW_hints : String → Option (Hint Nat) := fun s =>
  if s = "a" then some (Hint.datapipeMeta 5)
  else if s = "b" then some (Hint.datapipeMeta 0)
  else none

/-- Concrete wrapped constructor for the construct-time witnesses. -/
def ctvW_f : List (String × ArgVal Nat) → Nat := fun _ => 42

/-- Witness for C5: on an argument passing both checks the wrapper calls
through to the constructor. -/
theorem construct_time_wrapper_validation_witness :
    ctv_wrapper ctvW_issub ctvW_hints ctvW_f [("a", (⟨true, 3⟩ : ArgVal Nat))] =
      Except.ok 42 := by
  have h := (construct_time_wrapper_validation ctvW_issub ctvW_hints ctvW_f
    [("a", (⟨true, 3⟩ : ArgVal Nat))]).2.2.2 (by decide)
  simpa [ctvW_f] using h

/-- C9: the construct-time wrapper mutates arguments in binding order; when a
later argument fails validation, the already-processed arguments keep their
overwritten `.type` fields (replaced by the hint type) while the failing
argument and everything after it stay untouched, so validation is not
atomic. -/
theorem construct_time_wrapper_partial_mutation {T : Type} [DecidableEq T]
    (issub : T → T → Bool) (hints : String → Option (Hint T))
    (pre : List (String × ArgVal T)) (bad : String × ArgVal T)
    (rest : List (String × ArgVal T)) (n : String) (v : ArgVal T) (t : T)
    (hpre : pre.all (fun nv => !ctvViolates issub hints nv) = true)
    (hbad : ctvViolates issub hints bad = true)
    (hhint : hints n = some (Hint.datapipeMeta t)) :
    (ctv_loop issub hints (pre ++ bad :: rest)).1 =
      pre.map (ctv_mutate hints) ++ bad :: rest ∧
    (ctv_loop issub hints (pre ++ bad :: rest)).2.isSome = true ∧
    (ctv_mutate hints (n, v)).2.type = t := by
  have key : ∀ pre2 : List (String × ArgVal T),
      pre2.all (fun nv => !ctvViolates issub hints nv) = true →
      (ctv_loop issub hints (pre2 ++ bad :: rest)).1 =
        pre2.map (ctv_mutate hints) ++ bad :: rest ∧
      (ctv_loop issub hints (pre2 ++ bad :: rest)).2.isSome = true := by
    intro pre2
    induction pre2 with
    | nil =>
        intro _
        obtain ⟨bn, bv⟩ := bad
        simpa using ctv_loop_head_violation issub hints bn bv rest hbad
    | cons p ps ih =>
        intro hp
        obtain ⟨pn, pv⟩ := p
        rw [List.all_cons, Bool.and_eq_true] at hp
        have h1 : ctvViolates issub hints (pn, pv) = false := by
          simpa using hp.1
        have ihh := ih hp.2
        rw [List.cons_append,
          ctv_loop_head_pass issub hints pn pv (ps ++ bad :: rest) h1]
        exact ⟨by simp [ihh.1], by simpa using ihh.2⟩
  exact ⟨(key pre hpre).1, (key pre hpre).2, by simp [ctv_mutate, hhint]⟩

/-- Witness for C9: the first argument, already validated against its hint,
keeps its overwritten type after the second argument fails validation. -/
theorem construct_time_wrapper_partial_mutation_witness :
    (ctv_loop ctvW_issub ctvW_hints
        [("a", (⟨true, 3⟩ : ArgVal Nat)), ("b", ⟨true, 7⟩)]).1 =
      [("a", (⟨true, 5⟩ : ArgVal Nat)), ("b", ⟨true, 7⟩)] := by
  have h := (construct_time_wrapper_partial_mutation ctvW_issub ctvW_hints
    [("a", (⟨true, 3⟩ : ArgVal Nat))] ("b", ⟨true, 7⟩) [] "a" ⟨true, 3⟩ 5
    (by decide) (by decide) (by decide)).1
  simpa [ctv_mutate, ctvW_hints] using h

/-- Witness for C7: the permitted names are accepted at decoration time. -/
theorem validation_decorator_name_checks_witness :
    exceptIsOk (construct_time_validation "__init__" ctvW_issub ctvW_hints ctvW_f) = true ∧
    exceptIsOk (runtime_validation "__iter__" rvW_tychk rvW_f) = true :=
  ⟨(validation_decorator_name_checks "__init__" ctvW_issub ctvW_hints ctvW_f
      rvW_tychk rvW_f).1.mpr (Or.inl rfl),
   (validation_decorator_name_checks "__iter__" ctvW_issub ctvW_hints ctvW_f
      rvW_tychk rvW_f).2.mpr rfl⟩
